import Mathlib

/-!
# Verification of the mcp-ga4 filter builder and report formatters

Shallow embedding of the pure data-transformation core of the `damupi/mcp-ga4`
repository:

* `McpGa4` — `src/mcp_ga4/utils.py`: `_build_single_filter` and
  `_build_filter_expression`, translating human-friendly filter conditions
  into GA4 `FilterExpression` trees, with Python exceptions modelled as an
  explicit error type.
* `McpGa` — `src/mcp_ga/utils.py`: `format_report_response`, flattening a
  columnar `runReport` response into named records.
* `Ga4Tools` — `ga4/ga4_tools.py`: `_format_report_results`, the plain-text
  report renderer.

Python `float(...)` string parsing is modelled over `ℚ` by `PyModel.pyFloat`
(optional sign, decimal digits with optional fraction and exponent; leading
and trailing whitespace, underscores between digits, and infinity/NaN forms
are not modelled, as no claim exercises them). Python exceptions are
modelled by `PyModel.PyErr`, and a function that can raise returns
`Except PyErr _`.
-/

set_option autoImplicit false

namespace PyModel

/-- The kinds of Python exceptions raised by the embedded code paths:
`ValueError` and `KeyError` carry their message or missing key; `TypeError`
models `float(None)`; `IndexError` models indexing an empty list. -/
inductive PyErr where
  | valueError (msg : String)
  | keyError (key : String)
  | typeError (msg : String)
  | indexError
  deriving DecidableEq, Repr

/-- Convert a run of decimal digit characters to the natural number they
denote (most significant first). -/
def digitsToNat (ds : List Char) : Nat :=
  ds.foldl (fun a c => a * 10 + (c.toNat - 48)) 0

/-- Parse the exponent part of a float literal (after the `e`/`E`):
an optional sign followed by at least one digit. -/
def parseExp (cs : List Char) : Option Int :=
  match cs with
  | '+' :: r => if r ≠ [] ∧ r.all Char.isDigit then some (digitsToNat r : Int) else none
  | '-' :: r => if r ≠ [] ∧ r.all Char.isDigit then some (-(digitsToNat r : Int)) else none
  | r => if r ≠ [] ∧ r.all Char.isDigit then some (digitsToNat r : Int) else none

/-- The rational `m / 10^k` scaled by `10^e`, written with `mkRat` over
plain integer arithmetic so that it evaluates by kernel reduction. -/
def scaled (m : Nat) (k : Nat) (e : Int) : ℚ :=
  match e with
  | .ofNat n => mkRat (Int.ofNat (m * 10 ^ n)) (10 ^ k)
  | .negSucc n => mkRat (Int.ofNat m) (10 ^ k * 10 ^ (n + 1))

/-- The mantissa and what follows it: digits, an optional `.` with further
digits, requiring at least one digit overall, then an optional exponent. -/
def parseBody (cs : List Char) : Option ℚ :=
  let intDigits := cs.takeWhile Char.isDigit
  let rest := cs.dropWhile Char.isDigit
  match rest with
  | [] => if intDigits = [] then none else some (scaled (digitsToNat intDigits) 0 0)
  | '.' :: r =>
    let fracDigits := r.takeWhile Char.isDigit
    let rest2 := r.dropWhile Char.isDigit
    if intDigits = [] ∧ fracDigits = [] then none
    else
      let k := fracDigits.length
      let m := digitsToNat intDigits * 10 ^ k + digitsToNat fracDigits
      match rest2 with
      | [] => some (scaled m k 0)
      | 'e' :: er => (parseExp er).map (scaled m k)
      | 'E' :: er => (parseExp er).map (scaled m k)
      | _ => none
  | 'e' :: er => if intDigits = [] then none
    else (parseExp er).map (scaled (digitsToNat intDigits) 0)
  | 'E' :: er => if intDigits = [] then none
    else (parseExp er).map (scaled (digitsToNat intDigits) 0)
  | _ => none

/-- Model of Python `float(s)` on a string: `some q` when the string parses
as a (decimal) float literal with value `q`, `none` when `float` would raise
`ValueError`. -/
def pyFloat (s : String) : Option ℚ :=
  match s.toList with
  | '+' :: r => parseBody r
  | '-' :: r => (parseBody r).map Neg.neg
  | cs => parseBody cs

end PyModel

namespace McpGa4

open PyModel

/-- A condition's `value` entry: the JSON value is a string or a number
(integers suffice for the modelled inputs). -/
inductive Val where
  | vstr (s : String)
  | vint (n : Int)
  deriving DecidableEq, Repr

/-- Python `str(value)` on a condition value. -/
def pyStr : Val → String
  | .vstr s => s
  | .vint n => toString n

/-- Python `float(value)` on a condition value: an `int` always converts, a
string goes through float parsing. -/
def pyFloatOfVal : Val → Option ℚ
  | .vstr s => pyFloat s
  | .vint n => some (n : ℚ)

/-- A filter condition dict. Each key of the Python dict is an `Option`
field so that a missing key (and the resulting `KeyError`) is expressible. -/
structure Condition where
  field : Option String := none
  operator : Option String := none
  value : Option Val := none
  case_sensitive : Option Bool := none
  deriving DecidableEq, Repr

/-- The `Filter.StringFilter` message: match type, value, case sensitivity. -/
structure StringFilter where
  matchType : String
  value : String
  caseSensitive : Bool
  deriving DecidableEq, Repr

/-- The `Filter.NumericFilter` message: operation and double value. -/
structure NumericFilter where
  operation : String
  value : ℚ
  deriving DecidableEq, Repr

/-- A leaf `Filter` message: field name plus a typed sub-filter. -/
inductive GAFilter where
  | stringFilter (fieldName : String) (sf : StringFilter)
  | numericFilter (fieldName : String) (nf : NumericFilter)
  deriving DecidableEq, Repr

/-- The recursive `FilterExpression` tree. -/
inductive FilterExpression where
  | filter (f : GAFilter)
  | andGroup (expressions : List FilterExpression)
  | orGroup (expressions : List FilterExpression)

/-- Whether an expression is a leaf carrying a `numericFilter`. -/
def FilterExpression.isNumericLeaf : FilterExpression → Bool
  | .filter (.numericFilter _ _) => true
  | _ => false

/-- Whether an expression is a leaf carrying a `stringFilter`. -/
def FilterExpression.isStringLeaf : FilterExpression → Bool
  | .filter (.stringFilter _ _) => true
  | _ => false

/-- Ordered association-list lookup, modelling Python `dict[key]` /
`key in dict` on the literal operator tables. -/
def lookup (m : List (String × String)) (k : String) : Option String :=
  match m with
  | [] => none
  | (k', v) :: rest => if k = k' then some v else lookup rest k

/-- The `string_operator_map` literal of `_build_single_filter`, in source
order. -/
def string_operator_map : List (String × String) :=
  [("=", "EXACT"), ("!=", "NOT_EXACT"), ("contains", "CONTAINS"),
   ("starts_with", "BEGINS_WITH"), ("ends_with", "ENDS_WITH"),
   ("regex", "FULL_REGEXP"), ("partial_regex", "PARTIAL_REGEXP"),
   ("EXACT", "EXACT"), ("NOT_EXACT", "NOT_EXACT"),
   ("BEGINS_WITH", "BEGINS_WITH"), ("ENDS_WITH", "ENDS_WITH"),
   ("CONTAINS", "CONTAINS"), ("FULL_REGEXP", "FULL_REGEXP"),
   ("PARTIAL_REGEXP", "PARTIAL_REGEXP")]

/-- The `numeric_operator_map` literal of `_build_single_filter`, in source
order. -/
def numeric_operator_map : List (String × String) :=
  [("=", "EQUAL"), ("!=", "NOT_EQUAL"), (">", "GREATER_THAN"),
   (">=", "GREATER_THAN_OR_EQUAL"), ("<", "LESS_THAN"),
   ("<=", "LESS_THAN_OR_EQUAL"),
   ("EQUAL", "EQUAL"), ("NOT_EQUAL", "NOT_EQUAL"),
   ("GREATER_THAN", "GREATER_THAN"),
   ("GREATER_THAN_OR_EQUAL", "GREATER_THAN_OR_EQUAL"),
   ("LESS_THAN", "LESS_THAN"), ("LESS_THAN_OR_EQUAL", "LESS_THAN_OR_EQUAL")]

/-- The allowed match-type check list of the string branch. -/
def validStringMatchTypes : List String :=
  ["EXACT", "NOT_EXACT", "BEGINS_WITH", "ENDS_WITH", "CONTAINS",
   "FULL_REGEXP", "PARTIAL_REGEXP"]

/-- The allowed operation check list of the numeric branch. -/
def validNumericOperations : List String :=
  ["EQUAL", "NOT_EQUAL", "GREATER_THAN", "GREATER_THAN_OR_EQUAL",
   "LESS_THAN", "LESS_THAN_OR_EQUAL"]

/-- The message of the string-branch invalid-operator `ValueError`. -/
def invalidStringOperatorMsg (operator : String) : String :=
  "Invalid string operator: " ++ operator ++ ". Valid operators are: " ++
    String.intercalate ", " (string_operator_map.map Prod.fst)

/-- The message of the numeric-branch invalid-operator `ValueError`. -/
def invalidNumericOperatorMsg (operator : String) : String :=
  "Invalid numeric operator: " ++ operator ++ ". Valid operators are: " ++
    String.intercalate ", " (numeric_operator_map.map Prod.fst)

/-- The message of the unknown-operator `ValueError` of the final branch. -/
def invalidOperatorMsg (operator : String) : String :=
  "Invalid operator: " ++ operator ++ ". Must be one of: " ++
    String.intercalate ", "
      (string_operator_map.map Prod.fst ++ numeric_operator_map.map Prod.fst)

/-- Embedding of `_build_single_filter` (utils.py:43-121). Dict key reads
happen in source order (`operator`, `field`, `value`); the string table is
consulted before the numeric table; each branch re-checks its looked-up
enum against the allowed list before emitting a leaf. -/
def _build_single_filter (condition : Condition) : Except PyErr FilterExpression :=
  match condition.operator with
  | none => .error (.keyError "operator")
  | some operator =>
  match condition.field with
  | none => .error (.keyError "field")
  | some field_name =>
  match condition.value with
  | none => .error (.keyError "value")
  | some value =>
  match lookup string_operator_map operator with
  | some match_type =>
    if match_type ∈ validStringMatchTypes then
      .ok (.filter (.stringFilter field_name
        { matchType := match_type, value := pyStr value,
          caseSensitive := condition.case_sensitive.getD false }))
    else .error (.valueError (invalidStringOperatorMsg operator))
  | none =>
  match lookup numeric_operator_map operator with
  | some operation =>
    if operation ∈ validNumericOperations then
      match pyFloatOfVal value with
      | some numeric_value =>
        .ok (.filter (.numericFilter field_name
          { operation := operation, value := numeric_value }))
      | none => .error (.valueError ("Invalid numeric value: " ++ pyStr value))
    else .error (.valueError (invalidNumericOperatorMsg operator))
  | none => .error (.valueError (invalidOperatorMsg operator))

/-- One element of the list handed to `_build_filter_expression`: a bare
condition dict, or a dict whose `AND` (resp. `OR`) key holds a list of
condition dicts. -/
inductive FilterGroup where
  | cond (c : Condition)
  | and (cs : List Condition)
  | or (cs : List Condition)
  deriving DecidableEq, Repr

/-- The list comprehension `[_build_single_filter cond for cond in ...]`,
with the first raised exception propagating. -/
def buildConds : List Condition → Except PyErr (List FilterExpression)
  | [] => .ok []
  | c :: rest =>
    match _build_single_filter c with
    | .error e => .error e
    | .ok e =>
      match buildConds rest with
      | .error e2 => .error e2
      | .ok es => .ok (e :: es)

/-- Compilation of a single element of the top-level list, as performed by
the loop body of `_build_filter_expression`. -/
def compileElem : FilterGroup → Except PyErr FilterExpression
  | .and cs =>
    match buildConds cs with
    | .error e => .error e
    | .ok es => .ok (.andGroup es)
  | .or cs =>
    match buildConds cs with
    | .error e => .error e
    | .ok es => .ok (.orGroup es)
  | .cond c => _build_single_filter c

/-- The loop of `_build_filter_expression` accumulating `expressions`. -/
def buildExprs : List FilterGroup → Except PyErr (List FilterExpression)
  | [] => .ok []
  | g :: rest =>
    match compileElem g with
    | .error e => .error e
    | .ok e =>
      match buildExprs rest with
      | .error e2 => .error e2
      | .ok es => .ok (e :: es)

/-- Embedding of `_build_filter_expression` (utils.py:123-139): compile
each element and wrap the whole list in one `andGroup`. -/
def _build_filter_expression (filters : List FilterGroup) : Except PyErr FilterExpression :=
  match buildExprs filters with
  | .error e => .error e
  | .ok expressions => .ok (.andGroup expressions)

/-- The example condition `{"field":"country","operator":"=","value":"Japan"}`. -/
def japanCond : Condition :=
  { field := some "country", operator := some "=", value := some (Val.vstr "Japan") }

/-- The compiled leaf for `japanCond`. -/
def japanLeaf : FilterExpression :=
  .filter (.stringFilter "country"
    { matchType := "EXACT", value := "Japan", caseSensitive := false })

/-- Whether a builder result is a successful numeric leaf. -/
def resultIsNumericLeaf : Except PyErr FilterExpression → Bool
  | .ok e => e.isNumericLeaf
  | .error _ => false

/-- Whether a builder result is a `ValueError`. -/
def resultIsValueError : Except PyErr FilterExpression → Bool
  | .error (.valueError _) => true
  | _ => false

/-- The condition `{"field":"sessions","operator":"=","value":"3"}`: a
numeric-looking value under the `=` operator. -/
def sessionsEqCond : Condition :=
  { field := some "sessions", operator := some "=", value := some (Val.vstr "3") }

/-- The condition `{"field":"sessions","operator":">","value":"3"}`. -/
def sessionsGtCond : Condition :=
  { field := some "sessions", operator := some ">", value := some (Val.vstr "3") }

/-- The condition `{"operator":"=","value":"x"}` with no `field` key. -/
def missingFieldCond : Condition :=
  { operator := some "=", value := some (Val.vstr "x") }

/-- The four operator aliases that appear only in the numeric table. -/
def numericOnlyPairs : List (String × String) :=
  [(">", "GREATER_THAN"), (">=", "GREATER_THAN_OR_EQUAL"),
   ("<", "LESS_THAN"), ("<=", "LESS_THAN_OR_EQUAL")]

end McpGa4

namespace McpGa

open PyModel

/-- A `dimensionHeaders`/`metricHeaders` entry: `header.get("name")` may be
absent. -/
structure HeaderEntry where
  name : Option String := none
  deriving DecidableEq, Repr

/-- A `dimensionValues`/`metricValues` entry: `value.get("value")` may be
absent. -/
structure ValueEntry where
  value : Option String := none
  deriving DecidableEq, Repr

/-- A response row (or totals entry): its `dimensionValues` and
`metricValues` lists, each defaulting to empty when the key is absent. -/
structure ResponseRow where
  dimensionValues : List ValueEntry := []
  metricValues : List ValueEntry := []
  deriving DecidableEq, Repr

/-- The raw `runReport` response dict, with each consulted key optional or
defaulted exactly as `format_report_response` reads it. `metadata` is an
opaque pass-through payload. `totals = some l` models the presence of the
`totals` key with list `l`. -/
structure GAResponse where
  rowCount : Option Int := none
  metadata : Option String := none
  dimensionHeaders : List HeaderEntry := []
  metricHeaders : List HeaderEntry := []
  rows : List ResponseRow := []
  totals : Option (List ResponseRow) := none
  deriving DecidableEq, Repr

/-- A value stored in a formatted row: Python `None`, a string, an `int`,
or a `float` (modelled as an exact rational). -/
inductive CellVal where
  | none
  | str (s : String)
  | int (n : Int)
  | float (q : ℚ)
  deriving DecidableEq, Repr

/-- A Python dict with `Option String` keys, in insertion order. -/
abbrev PyDict := List (Option String × CellVal)

/-- Python `d[k] = v`: overwrite in place when the key exists, else append. -/
def dictInsert (d : PyDict) (k : Option String) (v : CellVal) : PyDict :=
  if d.any (fun p => p.1 = k) then
    d.map (fun p => if p.1 = k then (k, v) else p)
  else d ++ [(k, v)]

/-- The value stored for a dimension: `value.get("value")` unchanged. -/
def cellOfOpt : Option String → CellVal
  | Option.none => .none
  | some s => .str s

/-- The metric-value coercion block of `format_report_response`
(utils.py:89-97 and 107-113, identical in both places): `float(...)` then
`int(...)` when whole, the original string when `float` raises
`ValueError`; `float(None)` raises an uncaught `TypeError`. -/
def pyCoerceMetric : Option String → Except PyErr CellVal
  | Option.none =>
    .error (.typeError "float() argument must be a string or a number, not NoneType")
  | some s =>
    match pyFloat s with
    | some q => .ok (if q.den = 1 then .int q.num else .float q)
    | Option.none => .ok (.str s)

/-- The dimension loop of a row: `for i, value in enumerate(dimensionValues):
if i < len(dimension_headers): formatted_row[dimension_headers[i]] = ...`. -/
def addDims (dimension_headers : List (Option String)) :
    List ValueEntry → Nat → PyDict → PyDict
  | [], _, d => d
  | v :: vs, i, d =>
    match dimension_headers.get? i with
    | some h => addDims dimension_headers vs (i + 1) (dictInsert d h (cellOfOpt v.value))
    | Option.none => addDims dimension_headers vs (i + 1) d

/-- The metric loop of a row (also used for the totals entry): as the
dimension loop, but coercing each value, with exceptions propagating. -/
def addMets (metric_headers : List (Option String)) :
    List ValueEntry → Nat → PyDict → Except PyErr PyDict
  | [], _, d => .ok d
  | v :: vs, i, d =>
    match metric_headers.get? i with
    | some h =>
      match pyCoerceMetric v.value with
      | .error e => .error e
      | .ok cv => addMets metric_headers vs (i + 1) (dictInsert d h cv)
    | Option.none => addMets metric_headers vs (i + 1) d

/-- Formatting of one response row: dimensions first, then metrics. -/
def formatRow (dh mh : List (Option String)) (row : ResponseRow) : Except PyErr PyDict :=
  addMets mh row.metricValues 0 (addDims dh row.dimensionValues 0 [])

/-- The row loop, first exception propagating. -/
def formatRows (dh mh : List (Option String)) :
    List ResponseRow → Except PyErr (List PyDict)
  | [] => .ok []
  | r :: rs =>
    match formatRow dh mh r with
    | .error e => .error e
    | .ok d =>
      match formatRows dh mh rs with
      | .error e2 => .error e2
      | .ok ds => .ok (d :: ds)

/-- The formatter's output dict: `rows`, `row_count`, `metadata`, and
`totals` only when the input carried the key. -/
structure Formatted where
  rows : List PyDict
  row_count : Int
  metadata : Option String
  totals : Option PyDict := none
  deriving DecidableEq, Repr

/-- Embedding of `format_report_response` (utils.py:51-116): extract header
names, format every row, then — when the `totals` key is present — index
its first entry (`response["totals"][0]`, an `IndexError` on an empty
list) and format its metric values. -/
def format_report_response (response : GAResponse) : Except PyErr Formatted :=
  let dimension_headers := response.dimensionHeaders.map (·.name)
  let metric_headers := response.metricHeaders.map (·.name)
  match formatRows dimension_headers metric_headers response.rows with
  | .error e => .error e
  | .ok rows =>
    match response.totals with
    | Option.none =>
      .ok { rows := rows, row_count := response.rowCount.getD 0,
            metadata := response.metadata }
    | some [] => .error .indexError
    | some (t :: _) =>
      match addMets metric_headers t.metricValues 0 [] with
      | .error e => .error e
      | .ok td =>
        .ok { rows := rows, row_count := response.rowCount.getD 0,
              metadata := response.metadata, totals := some td }

/-- The spec's metric-value coercion rule (spec section 4.2), stated
directly from its words: attempt parse as float; a whole float coerces to
integer, a fractional one stays a float, an unparseable string is kept
unchanged. -/
def specCoerce (s : String) : CellVal :=
  match pyFloat s with
  | some q => if q.den = 1 then .int q.num else .float q
  | Option.none => .str s

/-- Coercion of an optional metric value: a present value follows the
spec rule, an absent one is kept as `None`. -/
def coerceOpt : Option String → CellVal
  | some s => specCoerce s
  | Option.none => .none

/-- One step of the spec's defensive dimension pairing. -/
def dimStep (d : PyDict) (p : ValueEntry × Option String) : PyDict :=
  dictInsert d p.2 (cellOfOpt p.1.value)

/-- One step of the spec's defensive metric pairing. -/
def metStep (d : PyDict) (p : ValueEntry × Option String) : PyDict :=
  dictInsert d p.2 (coerceOpt p.1.value)

/-- The spec's description of a formatted row: pair the row's dimension
values with dimension-header names by position up to the shorter of the
two lengths, then pair metric values with metric-header names the same
way. -/
def specFormatRow (dh mh : List (Option String)) (row : ResponseRow) : PyDict :=
  (row.metricValues.zip mh).foldl metStep
    ((row.dimensionValues.zip dh).foldl dimStep [])

/-- The spec's totals map: the first totals entry's metric values paired
with metric-header names by position up to the shorter length. -/
def specTotals (mh : List (Option String)) (t : ResponseRow) : PyDict :=
  (t.metricValues.zip mh).foldl metStep []

/-- A one-metric response surfacing the same metric value string `s` in
both a data row and the totals row. -/
def respWith (s : String) : GAResponse :=
  { metricHeaders := [{ name := some "m" }],
    rows := [{ metricValues := [{ value := some s }] }],
    totals := some [{ metricValues := [{ value := some s }] }] }

/-- The truncated response `{"totals": []}`: the `totals` key is present
but its list is empty. -/
def emptyTotalsResp : GAResponse := { totals := some [] }

/-- A response whose single row has fewer dimension values than dimension
headers. -/
def shortRowResp : GAResponse :=
  { dimensionHeaders := [{ name := some "country" }, { name := some "city" }],
    metricHeaders := [{ name := some "sessions" }],
    rows := [{ dimensionValues := [{ value := some "US" }],
               metricValues := [{ value := some "42" }] }] }

end McpGa

namespace Ga4Tools

/-- The `columnHeader.metricHeader` dict: its `metricHeaderEntries`, modelled by
their `name` values (every entry is assumed to carry its name; no claim
exercises a nameless entry). -/
structure MetricHeader where
  metricHeaderEntries : List String := []
  deriving DecidableEq, Repr

/-- The `report.columnHeader` dict: dimension names and the metric header. -/
structure ColumnHeader where
  dimensions : List String := []
  metricHeader : MetricHeader := {}
  deriving DecidableEq, Repr

/-- A UA-style report row: its `dimensions` values and, per metric entry,
the entry's `values` list. -/
structure UARow where
  dimensions : List String := []
  metrics : List (List String) := []
  deriving DecidableEq, Repr

/-- The `report.data` dict: its `rows` list. -/
structure ReportData where
  rows : List UARow := []
  deriving DecidableEq, Repr

/-- One report of the response. -/
structure UAReport where
  columnHeader : ColumnHeader := {}
  data : ReportData := {}
  deriving DecidableEq, Repr

/-- The response dict handed to `_format_report_results`; a falsy (empty)
response is modelled by `Option.none` at the call site. -/
structure UAResponse where
  reports : List UAReport := []
  deriving DecidableEq, Repr

/-- The 50-dash separator rule (`"-" * 50`). -/
def dashes50 : String := String.mk (List.replicate 50 '-')

/-- The 50-equals report separator (`"=" * 50`). -/
def equals50 : String := String.mk (List.replicate 50 '=')

/-- The flat value list of one rendered row: dimension values, then every
metric entry's `values`, in order. -/
def rowValues (row : UARow) : List String :=
  row.dimensions ++ row.metrics.flatMap id

/-- The lines contributed by one report: the `Headers:` line and dash rule
(only when there is at least one column), then the `No data rows found`
sentinel or one `|`-joined line per row with a non-empty value list. -/
def reportLines (report : UAReport) : List String :=
  let dimensions := report.columnHeader.dimensions
  let metrics := report.columnHeader.metricHeader.metricHeaderEntries
  let headers := dimensions ++ metrics
  let headerLines := if headers = [] then [] else
    ["Headers: " ++ String.intercalate " | " headers, dashes50]
  let rows := report.data.rows
  if rows = [] then headerLines ++ ["No data rows found"]
  else headerLines ++ rows.filterMap (fun row =>
    let vs := rowValues row
    if vs = [] then Option.none else some (String.intercalate " | " vs))

/-- All accumulated lines: every report after the first is preceded by the
`"\n" + "=" * 50` element the loop appends when `i > 0`. -/
def reportsLines : List UAReport → List String
  | [] => []
  | r :: rs => reportLines r ++ rs.flatMap (fun r2 => ("\n" ++ equals50) :: reportLines r2)

/-- Embedding of `_format_report_results` (ga4_tools.py:172-228): the two
early-out messages, then the accumulated lines joined with newlines. -/
def _format_report_results (response : Option UAResponse) : String :=
  match response with
  | Option.none => "No data returned from GA4 API"
  | some resp =>
    if resp.reports = [] then "No reports found in response"
    else String.intercalate "\n" (reportsLines resp.reports)

/-- A report with one dimension column whose single row carries no values. -/
def emptyRowReport : UAReport :=
  { columnHeader := { dimensions := ["d"] }, data := { rows := [{}] } }

/-- A row with one dimension value and one metric entry of one value. -/
def usRow : UARow := { dimensions := ["US"], metrics := [["42"]] }

/-- A column header with one dimension and one metric name. -/
def usHeader : ColumnHeader :=
  { dimensions := ["country"], metricHeader := { metricHeaderEntries := ["sessions"] } }

/-- A one-report response with `usHeader` and the single row `usRow`. -/
def usReport : UAReport := { columnHeader := usHeader, data := { rows := [usRow] } }

end Ga4Tools

/-! ## Helper lemmas about the filter builder -/

namespace McpGa4

/-- A successful lookup returns one of the table's values. -/
theorem lookup_mem {m : List (String × String)} {k v : String}
    (h : lookup m k = some v) : v ∈ m.map Prod.snd := by
  induction m with
  | nil => simp [lookup] at h
  | cons p rest ih =>
    obtain ⟨k', v'⟩ := p
    rw [lookup] at h
    split at h
    · cases h
      simp
    · simp only [List.map_cons]
      exact List.mem_cons_of_mem _ (ih h)

/-- Every value of the string table passes the match-type re-check. -/
theorem string_lookup_valid {op mt : String}
    (h : lookup string_operator_map op = some mt) : mt ∈ validStringMatchTypes := by
  have hall : ∀ x ∈ string_operator_map.map Prod.snd, x ∈ validStringMatchTypes := by
    decide
  exact hall _ (lookup_mem h)

/-- Every value of the numeric table passes the operation re-check. -/
theorem numeric_lookup_valid {op opn : String}
    (h : lookup numeric_operator_map op = some opn) : opn ∈ validNumericOperations := by
  have hall : ∀ x ∈ numeric_operator_map.map Prod.snd, x ∈ validNumericOperations := by
    decide
  exact hall _ (lookup_mem h)

/-- Evaluation of `_build_single_filter` when the operator hits the string
table: the leaf stringFilter, with `case_sensitive` defaulted. -/
theorem build_single_string (field_name op : String) (v : Val) (cs : Option Bool)
    {mt : String} (h : lookup string_operator_map op = some mt) :
    _build_single_filter
      { field := some field_name, operator := some op, value := some v,
        case_sensitive := cs } =
    .ok (.filter (.stringFilter field_name
      { matchType := mt, value := pyStr v, caseSensitive := cs.getD false })) := by
  unfold _build_single_filter
  simp only [h, if_pos (string_lookup_valid h)]

/-- Evaluation of `_build_single_filter` when the operator misses the
string table, hits the numeric table, and the value parses. -/
theorem build_single_numeric (field_name op : String) (v : Val) (cs : Option Bool)
    {opn : String} {q : ℚ}
    (h1 : lookup string_operator_map op = none)
    (h2 : lookup numeric_operator_map op = some opn)
    (h3 : pyFloatOfVal v = some q) :
    _build_single_filter
      { field := some field_name, operator := some op, value := some v,
        case_sensitive := cs } =
    .ok (.filter (.numericFilter field_name { operation := opn, value := q })) := by
  unfold _build_single_filter
  simp only [h1, h2, h3, if_pos (numeric_lookup_valid h2)]

/-- The index-wise content of a successful `buildExprs` run: one output
expression per input element, each the compiled expression of its element. -/
theorem buildExprs_spec : ∀ (gs : List FilterGroup) (es : List FilterExpression),
    buildExprs gs = .ok es →
    es.length = gs.length ∧
      ∀ (i : ℕ) (h1 : i < gs.length) (h2 : i < es.length),
        compileElem (gs.get ⟨i, h1⟩) = .ok (es.get ⟨i, h2⟩) := by
  intro gs
  induction gs with
  | nil =>
    intro es h
    simp only [buildExprs] at h
    cases h
    exact ⟨rfl, fun i h1 _ => absurd h1 (Nat.not_lt_zero i)⟩
  | cons g rest ih =>
    intro es h
    rw [buildExprs] at h
    cases he : compileElem g with
    | error e => rw [he] at h; cases h
    | ok e =>
      rw [he] at h
      cases hr : buildExprs rest with
      | error e2 => rw [hr] at h; cases h
      | ok es2 =>
        rw [hr] at h
        cases h
        obtain ⟨hlen, hget⟩ := ih es2 hr
        refine ⟨by simp [hlen], ?_⟩
        intro i h1 h2
        cases i with
        | zero => simpa using he
        | succ j =>
          simp only [List.get_cons_succ]
          exact hget j (Nat.lt_of_succ_lt_succ h1) (Nat.lt_of_succ_lt_succ h2)

end McpGa4

/-! ## Claim theorems for the filter builder -/

section BuilderClaims

open PyModel McpGa4

/-- C10: calling `_build_filter_expression` with the empty list does not
raise and returns an `andGroup` whose expressions list is empty. -/
theorem c10_empty_filters_empty_andGroup :
    _build_filter_expression [] = .ok (.andGroup []) := rfl

/-- C1: whenever `_build_filter_expression` succeeds, its value is a single
top-level `andGroup` whose expressions list has exactly one entry per input
element, in input order, each entry being the compiled expression of its
element — with no flattening for a one-element input. -/
theorem c1_top_level_andGroup_one_entry_per_element :
    ∀ (filters : List FilterGroup) (r : FilterExpression),
      _build_filter_expression filters = .ok r →
      ∃ es : List FilterExpression, r = .andGroup es ∧
        es.length = filters.length ∧
        ∀ (i : ℕ) (h1 : i < filters.length) (h2 : i < es.length),
          compileElem (filters.get ⟨i, h1⟩) = .ok (es.get ⟨i, h2⟩) := by
  intro filters r h
  unfold _build_filter_expression at h
  cases hb : buildExprs filters with
  | error e => rw [hb] at h; cases h
  | ok es =>
    rw [hb] at h
    cases h
    obtain ⟨hlen, hget⟩ := buildExprs_spec filters es hb
    exact ⟨es, rfl, hlen, hget⟩

/-- C1 witness: the one-element list compiles to an `andGroup` with exactly
one entry and no top-level flattening. -/
theorem c1_witness :
    ∃ es : List FilterExpression,
      FilterExpression.andGroup [japanLeaf] = .andGroup es ∧
      es.length = [FilterGroup.cond japanCond].length ∧
      ∀ (i : ℕ) (h1 : i < [FilterGroup.cond japanCond].length) (h2 : i < es.length),
        compileElem ([FilterGroup.cond japanCond].get ⟨i, h1⟩) = .ok (es.get ⟨i, h2⟩) :=
  c1_top_level_andGroup_one_entry_per_element _ _ rfl

/-- C2 counterexample: the condition `{"field":"sessions","operator":"=",
"value":"3"}` — operator `=`, value a numeric string — compiles to a
stringFilter leaf with matchType EXACT and the value kept as the string
`"3"`, not to a numericFilter with operation EQUAL as the claim requires. -/
theorem c2_counterexample :
    _build_single_filter sessionsEqCond =
      .ok (.filter (.stringFilter "sessions"
        { matchType := "EXACT", value := "3", caseSensitive := false })) ∧
    resultIsNumericLeaf (_build_single_filter sessionsEqCond) = false :=
  ⟨rfl, rfl⟩

/-- C2 amended: for the numeric-only operator aliases `>`, `>=`, `<`, `<=`
applied to a string value that parses as a number, the builder emits a
numericFilter leaf whose value is `float(value)` and whose operation is the
numeric alias-table entry; `=` and `!=` never reach the numeric branch
because the string table is consulted first. -/
theorem c2_numeric_only_operators (field_name v op opn : String) (q : ℚ)
    (hop : (op, opn) ∈ numericOnlyPairs)
    (hv : pyFloat v = some q) :
    _build_single_filter
      { field := some field_name, operator := some op, value := some (Val.vstr v) } =
    .ok (.filter (.numericFilter field_name { operation := opn, value := q })) := by
  simp only [numericOnlyPairs, List.mem_cons, List.not_mem_nil, or_false,
    Prod.mk.injEq] at hop
  rcases hop with ⟨h1, h2⟩ | ⟨h1, h2⟩ | ⟨h1, h2⟩ | ⟨h1, h2⟩ <;> subst h1 <;> subst h2 <;>
    exact build_single_numeric field_name _ (Val.vstr v) none (by decide) (by decide) hv

/-- C2 witness: `>` on `"3"` yields a GREATER_THAN numericFilter with
double value 3. -/
theorem c2_witness :
    pyFloat "3" = some (mkRat 3 1) ∧
    _build_single_filter sessionsGtCond =
      .ok (.filter (.numericFilter "sessions"
        { operation := "GREATER_THAN", value := mkRat 3 1 })) :=
  ⟨by decide,
   c2_numeric_only_operators "sessions" "3" ">" "GREATER_THAN" (mkRat 3 1)
     (by decide) (by decide)⟩

/-- C9: a condition with operator `=` (resp. `!=`) always resolves through
the string alias table — whatever its value — yielding a stringFilter leaf
with the value stringified; and any successful numericFilter leaf can only
arise from an operator absent from the string table. -/
theorem c9_eq_resolves_via_string_table :
    (∀ (field_name : String) (v : Val) (cs : Option Bool),
      _build_single_filter
        { field := some field_name, operator := some "=", value := some v,
          case_sensitive := cs } =
      .ok (.filter (.stringFilter field_name
        { matchType := "EXACT", value := pyStr v, caseSensitive := cs.getD false }))) ∧
    (∀ (field_name : String) (v : Val) (cs : Option Bool),
      _build_single_filter
        { field := some field_name, operator := some "!=", value := some v,
          case_sensitive := cs } =
      .ok (.filter (.stringFilter field_name
        { matchType := "NOT_EXACT", value := pyStr v, caseSensitive := cs.getD false }))) ∧
    (∀ (c : Condition) (fn : String) (nf : NumericFilter),
      _build_single_filter c = .ok (.filter (.numericFilter fn nf)) →
      ∃ op, c.operator = some op ∧ lookup string_operator_map op = none) := by
  refine ⟨?_, ?_, ?_⟩
  · intro field_name v cs
    exact build_single_string field_name "=" v cs (by decide)
  · intro field_name v cs
    exact build_single_string field_name "!=" v cs (by decide)
  · intro c fn nf h
    unfold _build_single_filter at h
    cases ho : c.operator with
    | none => rw [ho] at h; exact Except.noConfusion h
    | some op =>
      rw [ho] at h
      dsimp only at h
      cases hf : c.field with
      | none => rw [hf] at h; exact Except.noConfusion h
      | some fn2 =>
        rw [hf] at h
        dsimp only at h
        cases hv : c.value with
        | none => rw [hv] at h; exact Except.noConfusion h
        | some v =>
          rw [hv] at h
          dsimp only at h
          cases hs : lookup string_operator_map op with
          | some mt =>
            rw [hs] at h
            dsimp only at h
            split at h
            · simp at h
            · exact Except.noConfusion h
          | none => exact ⟨op, rfl, hs⟩

/-- C9 witness: the `>` condition takes the numeric branch, and its
operator is indeed absent from the string table. -/
theorem c9_witness :
    ∃ op, sessionsGtCond.operator = some op ∧ lookup string_operator_map op = none :=
  c9_eq_resolves_via_string_table.2.2 sessionsGtCond "sessions"
    { operation := "GREATER_THAN", value := mkRat 3 1 } rfl

/-- C6: a string-classified condition compiles to a stringFilter leaf with
matchType the string alias-table entry, the value stringified, and
caseSensitive false when `case_sensitive` is absent; `starts_with` maps to
BEGINS_WITH; and the one-condition Japan example produces exactly the
claimed single-leaf `andGroup`. -/
theorem c6_string_condition_leaf :
    (∀ (field_name op mt : String) (v : Val),
      lookup string_operator_map op = some mt →
      _build_single_filter
        { field := some field_name, operator := some op, value := some v } =
      .ok (.filter (.stringFilter field_name
        { matchType := mt, value := pyStr v, caseSensitive := false }))) ∧
    lookup string_operator_map "starts_with" = some "BEGINS_WITH" ∧
    _build_filter_expression [FilterGroup.cond japanCond] = .ok (.andGroup [japanLeaf]) := by
  refine ⟨?_, rfl, rfl⟩
  intro field_name op mt v h
  exact build_single_string field_name op v none h

/-- C6 witness: `starts_with` on `"/blog"` yields a BEGINS_WITH leaf with
caseSensitive defaulted to false. -/
theorem c6_witness :
    _build_single_filter
      { field := some "page", operator := some "starts_with",
        value := some (Val.vstr "/blog") } =
    .ok (.filter (.stringFilter "page"
      { matchType := "BEGINS_WITH", value := "/blog", caseSensitive := false })) :=
  c6_string_condition_leaf.1 "page" "starts_with" "BEGINS_WITH" (Val.vstr "/blog")
    (by decide)

/-- C5 counterexample: a condition missing its `field` key raises
`KeyError`, not the claimed `ValidationError` (`ValueError`) kind. -/
theorem c5_counterexample :
    _build_single_filter missingFieldCond = .error (.keyError "field") ∧
    resultIsValueError (_build_single_filter missingFieldCond) = false :=
  ⟨rfl, rfl⟩

/-- C5 amended: the builder's complete error behaviour — a missing
`operator`/`field`/`value` key raises `KeyError` naming the key (keys read
in that order); an operator in neither table raises `ValueError` naming
the operator and listing the valid operators; a numeric-branch value that
fails to parse raises `ValueError`; every other condition succeeds; so
`ValueError` and `KeyError` are the only error kinds. -/
theorem c5_error_characterization :
    (∀ c : Condition, c.operator = none →
      _build_single_filter c = .error (.keyError "operator")) ∧
    (∀ (c : Condition) (op : String), c.operator = some op → c.field = none →
      _build_single_filter c = .error (.keyError "field")) ∧
    (∀ (c : Condition) (op fn : String), c.operator = some op → c.field = some fn →
      c.value = none → _build_single_filter c = .error (.keyError "value")) ∧
    (∀ (c : Condition) (op fn : String) (v : Val), c.operator = some op →
      c.field = some fn → c.value = some v →
      lookup string_operator_map op = none → lookup numeric_operator_map op = none →
      _build_single_filter c = .error (.valueError (invalidOperatorMsg op))) ∧
    (∀ (c : Condition) (op fn opn : String) (v : Val), c.operator = some op →
      c.field = some fn → c.value = some v →
      lookup string_operator_map op = none →
      lookup numeric_operator_map op = some opn → pyFloatOfVal v = none →
      _build_single_filter c = .error (.valueError ("Invalid numeric value: " ++ pyStr v))) ∧
    (∀ (c : Condition) (op fn : String) (v : Val), c.operator = some op →
      c.field = some fn → c.value = some v →
      (lookup string_operator_map op ≠ none ∨
        (lookup numeric_operator_map op ≠ none ∧ pyFloatOfVal v ≠ none)) →
      ∃ e, _build_single_filter c = .ok e) := by
  refine ⟨?_, ?_, ?_, ?_, ?_, ?_⟩
  · intro c h1
    unfold _build_single_filter
    rw [h1]
  · intro c op h1 h2
    unfold _build_single_filter
    rw [h1, h2]
  · intro c op fn h1 h2 h3
    unfold _build_single_filter
    rw [h1, h2, h3]
  · intro c op fn v h1 h2 h3 h4 h5
    unfold _build_single_filter
    simp only [h1, h2, h3, h4, h5]
  · intro c op fn opn v h1 h2 h3 h4 h5 h6
    unfold _build_single_filter
    simp only [h1, h2, h3, h4, h5, h6, if_pos (numeric_lookup_valid h5)]
  · intro c op fn v h1 h2 h3 h4
    unfold _build_single_filter
    simp only [h1, h2, h3]
    cases hs : lookup string_operator_map op with
    | some mt =>
      dsimp only
      rw [if_pos (string_lookup_valid hs)]
      exact ⟨_, rfl⟩
    | none =>
      dsimp only
      rcases h4 with h4 | ⟨hn, hv⟩
      · exact absurd hs h4
      · cases hnum : lookup numeric_operator_map op with
        | none => exact absurd hnum hn
        | some opn =>
          dsimp only
          rw [if_pos (numeric_lookup_valid hnum)]
          cases hq : pyFloatOfVal v with
          | none => exact absurd hq hv
          | some q =>
            dsimp only
            exact ⟨_, rfl⟩

/-- C5 witness: a fully well-formed condition compiles without raising. -/
theorem c5_witness : ∃ e, _build_single_filter japanCond = .ok e :=
  c5_error_characterization.2.2.2.2.2 japanCond "=" "country" (Val.vstr "Japan")
    rfl rfl rfl (Or.inl (by decide))

end BuilderClaims

/-! ## Helper lemmas about the report formatter -/

namespace McpGa

open PyModel

/-- On a present value, the source's coercion block computes exactly the
spec's coercion rule, without raising. -/
theorem pyCoerceMetric_some (s : String) :
    pyCoerceMetric (some s) = .ok (specCoerce s) := by
  unfold pyCoerceMetric specCoerce
  dsimp only
  cases pyFloat s <;> rfl

/-- The index-bounded dimension loop equals a fold over the zip of the
values with the headers dropped to the loop's start index. -/
theorem addDims_drop (dh : List (Option String)) :
    ∀ (vs : List ValueEntry) (i : Nat) (d : PyDict),
      addDims dh vs i d = (vs.zip (dh.drop i)).foldl dimStep d := by
  intro vs
  induction vs with
  | nil => intro i d; simp [addDims]
  | cons v vs ih =>
    intro i d
    simp only [addDims]
    by_cases hlt : i < dh.length
    · rw [List.get?_eq_get hlt]
      dsimp only
      rw [ih (i + 1)]
      conv_rhs => rw [List.drop_eq_getElem_cons hlt]
      simp only [List.zip_cons_cons, List.foldl_cons]
      rfl
    · rw [List.get?_eq_none.mpr (Nat.le_of_not_lt hlt)]
      dsimp only
      rw [ih (i + 1),
        List.drop_eq_nil_of_le (Nat.le_of_not_lt hlt),
        List.drop_eq_nil_of_le (Nat.le_succ_of_le (Nat.le_of_not_lt hlt))]
      simp

/-- The index-bounded metric loop succeeds and equals the corresponding
zip fold whenever every metric value entry carries a value string. -/
theorem addMets_drop (mh : List (Option String)) :
    ∀ (vs : List ValueEntry) (i : Nat) (d : PyDict),
      (∀ v ∈ vs, v.value.isSome) →
      addMets mh vs i d = .ok ((vs.zip (mh.drop i)).foldl metStep d) := by
  intro vs
  induction vs with
  | nil => intro i d _; simp [addMets]
  | cons v vs ih =>
    intro i d hall
    obtain ⟨s, hs⟩ : ∃ s, v.value = some s :=
      Option.isSome_iff_exists.mp (hall v (List.mem_cons_self v vs))
    have hrest : ∀ w ∈ vs, w.value.isSome :=
      fun w hw => hall w (List.mem_cons_of_mem _ hw)
    simp only [addMets]
    by_cases hlt : i < mh.length
    · rw [List.get?_eq_get hlt]
      dsimp only
      rw [hs, pyCoerceMetric_some]
      dsimp only
      rw [ih (i + 1) _ hrest]
      conv_rhs => rw [List.drop_eq_getElem_cons hlt]
      simp only [List.zip_cons_cons, List.foldl_cons]
      simp [metStep, coerceOpt, hs]
    · rw [List.get?_eq_none.mpr (Nat.le_of_not_lt hlt)]
      dsimp only
      rw [ih (i + 1) _ hrest,
        List.drop_eq_nil_of_le (Nat.le_of_not_lt hlt),
        List.drop_eq_nil_of_le (Nat.le_succ_of_le (Nat.le_of_not_lt hlt))]
      simp

/-- One row formats successfully to the spec's defensive pairing whenever
its metric value entries carry value strings. -/
theorem formatRow_ok (dh mh : List (Option String)) (row : ResponseRow)
    (h : ∀ v ∈ row.metricValues, v.value.isSome) :
    formatRow dh mh row = .ok (specFormatRow dh mh row) := by
  unfold formatRow specFormatRow
  rw [addDims_drop, addMets_drop _ _ _ _ h]
  simp

/-- The row loop succeeds row-wise under the same condition. -/
theorem formatRows_ok (dh mh : List (Option String)) :
    ∀ rows : List ResponseRow,
      (∀ row ∈ rows, ∀ v ∈ row.metricValues, v.value.isSome) →
      formatRows dh mh rows = .ok (rows.map (specFormatRow dh mh)) := by
  intro rows
  induction rows with
  | nil => intro _; rfl
  | cons r rs ih =>
    intro hall
    rw [formatRows,
      formatRow_ok dh mh r (hall r (List.mem_cons_self r rs)),
      ih (fun w hw => hall w (List.mem_cons_of_mem _ hw))]
    rfl

end McpGa

/-! ## Claim theorems for the report formatter -/

section FormatterClaims

open PyModel McpGa

/-- C3 counterexample: the formatter raises (an `IndexError`) on the
truncated response `{"totals": []}` — so it is not true that it never
raises for any input response. -/
theorem c3_counterexample :
    format_report_response emptyTotalsResp = .error .indexError := rfl

/-- C3 amended: the formatter pairs dimension and metric values with
header names by position up to the shorter of the two lengths (a row with
fewer values than headers contributes only the keys whose value is
present), and returns without raising for every response whose `totals`
list — when the key is present — is non-empty and whose consulted metric
value entries carry value strings; `{"totals": []}` instead raises
`IndexError`. -/
theorem c3_formatter_defensive (r : GAResponse)
    (htot : r.totals ≠ some [])
    (hrows : ∀ row ∈ r.rows, ∀ v ∈ row.metricValues, v.value.isSome)
    (htotv : ∀ v ∈ ((r.totals.getD []).headD {}).metricValues, v.value.isSome) :
    ∃ out : Formatted,
      format_report_response r = .ok out ∧
      out.rows = r.rows.map (specFormatRow (r.dimensionHeaders.map (·.name))
        (r.metricHeaders.map (·.name))) ∧
      out.row_count = r.rowCount.getD 0 ∧
      (r.totals = none → out.totals = none) ∧
      (∀ (t : ResponseRow) (rest : List ResponseRow), r.totals = some (t :: rest) →
        out.totals = some (specTotals (r.metricHeaders.map (·.name)) t)) := by
  unfold format_report_response
  dsimp only
  rw [formatRows_ok _ _ r.rows hrows]
  dsimp only
  cases ht : r.totals with
  | none =>
    exact ⟨_, rfl, rfl, rfl, fun _ => rfl, fun t rest h => Option.noConfusion h⟩
  | some l =>
    cases l with
    | nil => exact absurd ht htot
    | cons t rest =>
      have hv : ∀ v ∈ t.metricValues, v.value.isSome := by
        rw [ht] at htotv
        simpa using htotv
      dsimp only
      rw [addMets_drop _ _ _ _ hv]
      dsimp only
      refine ⟨_, rfl, rfl, rfl, fun h => Option.noConfusion h, ?_⟩
      intro t2 rest2 h
      cases h
      rfl

/-- C3 witness: a row with one dimension value under two dimension headers
formats to a row containing only the present key, with no exception. -/
theorem c3_witness :
    ∃ out : Formatted,
      format_report_response shortRowResp = .ok out ∧
      out.rows = shortRowResp.rows.map
        (specFormatRow (shortRowResp.dimensionHeaders.map (·.name))
          (shortRowResp.metricHeaders.map (·.name))) ∧
      out.row_count = shortRowResp.rowCount.getD 0 ∧
      (shortRowResp.totals = none → out.totals = none) ∧
      (∀ (t : ResponseRow) (rest : List ResponseRow),
        shortRowResp.totals = some (t :: rest) →
        out.totals = some (specTotals (shortRowResp.metricHeaders.map (·.name)) t)) :=
  c3_formatter_defensive shortRowResp (by decide) (by decide) (by decide)

/-- C4: every metric value string surfaced by the formatter — in a data
row and in the totals row alike — is coerced by the single rule: a float
parse with zero fractional part becomes the int, a fractional parse stays
a float, a failed parse keeps the string; in particular "3.0" becomes the
integer 3, "3.5" the float 7/2, and "n/a" stays the string "n/a". -/
theorem c4_metric_value_coercion :
    (∀ s : String,
      format_report_response (respWith s) =
        .ok { rows := [[(some "m", specCoerce s)]], row_count := 0,
              metadata := none, totals := some [(some "m", specCoerce s)] }) ∧
    specCoerce "3.0" = .int 3 ∧
    specCoerce "3.5" = .float (mkRat 7 2) ∧
    specCoerce "n/a" = .str "n/a" := by
  refine ⟨?_, by decide, by decide, by decide⟩
  intro s
  unfold format_report_response respWith
  dsimp only
  rw [formatRows_ok _ _ _ (by simp), addMets_drop _ _ _ _ (by simp)]
  dsimp only
  rfl

end FormatterClaims

/-! ## Helper lemma and claim theorems for the plain-text renderer -/

namespace Ga4Tools

/-- When every row contributes at least one value, the renderer's
filterMap over rows is a plain map. -/
theorem filterMap_rows_eq_map (rows : List UARow)
    (h : ∀ row ∈ rows, rowValues row ≠ []) :
    rows.filterMap (fun row =>
      if rowValues row = [] then Option.none
      else some (String.intercalate " | " (rowValues row))) =
    rows.map (fun row => String.intercalate " | " (rowValues row)) := by
  induction rows with
  | nil => rfl
  | cons r rs ih =>
    have hr : rowValues r ≠ [] := h r (List.mem_cons_self r rs)
    simp only [List.filterMap_cons, List.map_cons, if_neg hr]
    rw [ih (fun w hw => h w (List.mem_cons_of_mem _ hw))]

end Ga4Tools

section RendererClaims

open Ga4Tools

/-- C7 counterexample: a report with one row that carries no values emits
no line for that row — the output for a one-row report has only the header
line and the separator rule, not one `|`-joined line per row. -/
theorem c7_counterexample :
    _format_report_results (some { reports := [emptyRowReport] }) =
      "Headers: d\n" ++ dashes50 ∧
    (reportLines emptyRowReport).length = 2 ∧
    emptyRowReport.data.rows.length = 1 :=
  ⟨rfl, rfl, rfl⟩

/-- C7 amended: for a one-report response the renderer emits the header
line (`|`-joined column names after a `Headers: ` prefix) and a separator
rule whenever there is at least one column, then one `|`-joined line per
row with a non-empty value list, in original row order (a row contributing
no values yields no line); an empty row list instead yields the literal
`No data rows found` line; the output is a deterministic function of the
input with rows never re-sorted. -/
theorem c7_renderer_structure :
    (∀ (ch : ColumnHeader) (rows : List UARow), rows ≠ [] →
      (∀ row ∈ rows, rowValues row ≠ []) →
      _format_report_results
        (some { reports := [{ columnHeader := ch, data := { rows := rows } }] }) =
      String.intercalate "\n"
        ((if ch.dimensions ++ ch.metricHeader.metricHeaderEntries = [] then []
          else ["Headers: " ++ String.intercalate " | "
              (ch.dimensions ++ ch.metricHeader.metricHeaderEntries), dashes50]) ++
         rows.map (fun row => String.intercalate " | " (rowValues row)))) ∧
    (∀ ch : ColumnHeader,
      _format_report_results
        (some { reports := [{ columnHeader := ch, data := { rows := [] } }] }) =
      String.intercalate "\n"
        ((if ch.dimensions ++ ch.metricHeader.metricHeaderEntries = [] then []
          else ["Headers: " ++ String.intercalate " | "
              (ch.dimensions ++ ch.metricHeader.metricHeaderEntries), dashes50]) ++
         ["No data rows found"])) := by
  constructor
  · intro ch rows hne hvals
    have hrep : ([{ columnHeader := ch, data := { rows := rows } }] : List UAReport) ≠ [] := by
      simp
    unfold _format_report_results
    dsimp only
    rw [if_neg hrep]
    unfold reportsLines reportLines
    dsimp only
    rw [if_neg hne, filterMap_rows_eq_map rows hvals]
    simp only [List.flatMap_nil, List.append_nil]
  · intro ch
    have hrep : ([{ columnHeader := ch, data := { rows := [] } }] : List UAReport) ≠ [] := by
      simp
    unfold _format_report_results
    dsimp only
    rw [if_neg hrep]
    unfold reportsLines reportLines
    dsimp only
    simp only [if_true, List.flatMap_nil, List.append_nil]

/-- C7 witness: a one-row report renders to header line, separator, and
the row's `|`-joined values. -/
theorem c7_witness :
    _format_report_results (some { reports := [usReport] }) =
      "Headers: country | sessions\n" ++ dashes50 ++ "\nUS | 42" :=
  (c7_renderer_structure.1 usHeader [usRow] (by decide) (by decide)).trans (by decide)

end RendererClaims

section PurityClaims

/-- C8: both the filter-expression builder and the report-response
formatter are deterministic pure functions of their input — equal inputs
give equal outputs. -/
theorem c8_pure_deterministic :
    (∀ a b : List McpGa4.FilterGroup, a = b →
      McpGa4._build_filter_expression a = McpGa4._build_filter_expression b) ∧
    (∀ r s : McpGa.GAResponse, r = s →
      McpGa.format_report_response r = McpGa.format_report_response s) :=
  ⟨fun _ _ h => by rw [h], fun _ _ h => by rw [h]⟩

/-- C8 witness: determinism applied at concrete inputs. -/
theorem c8_witness :
    McpGa4._build_filter_expression [] = McpGa4._build_filter_expression [] ∧
    McpGa.format_report_response {} = McpGa.format_report_response {} :=
  ⟨c8_pure_deterministic.1 [] [] rfl, c8_pure_deterministic.2 {} {} rfl⟩

end PurityClaims

section Scratch

example :
    McpGa4._build_filter_expression
      [.cond { field := some "country", operator := some "=",
               value := some (.vstr "Japan") }] =
    .ok (.andGroup [.filter (.stringFilter "country"
      { matchType := "EXACT", value := "Japan", caseSensitive := false })]) := by
  rfl

example : PyModel.pyFloat "3.0" = some (mkRat 3 1) := by decide
example : PyModel.pyFloat "3.5" = some (mkRat 7 2) := by decide
example : PyModel.pyFloat "n/a" = none := by decide
example : PyModel.pyFloat "-2e3" = some (mkRat (-2000) 1) := by decide
example : PyModel.pyFloat ".5" = some (mkRat 1 2) := by decide
example : PyModel.pyFloat "" = none := by decide
example : (mkRat 3 1).den = 1 ∧ (mkRat 7 2).den = 2 := by decide

example :
    McpGa.format_report_response
      { dimensionHeaders := [{ name := some "country" }],
        metricHeaders := [{ name := some "sessions" }],
        rowCount := some 1,
        rows := [{ dimensionValues := [{ value := some "US" }],
                   metricValues := [{ value := some "42" }] }] } =
    .ok { rows := [[(some "country", .str "US"), (some "sessions", .int 42)]],
          row_count := 1, metadata := none } := by
  rfl

example : McpGa.format_report_response { totals := some [] } = .error .indexError := by
  rfl

example :
    Ga4Tools._format_report_results
      (some { reports := [{ columnHeader := { dimensions := ["d"] },
                            data := { rows := [{}] } }] }) =
    "Headers: d\n" ++ Ga4Tools.dashes50 := by
  rfl

example :
    Ga4Tools._format_report_results
      (some { reports := [{ columnHeader := { dimensions := ["d"] },
                            data := { rows := [] } }] }) =
    "Headers: d\n" ++ Ga4Tools.dashes50 ++ "\nNo data rows found" := by
  rfl

end Scratch
